import Mathlib

/-!
Shallow embedding of the M-Pesa payment-intent subsystem of the
Qikao Grill repository (`src/server/server.js`: the `/api/mpesa/stkpush`,
`/api/mpesa/callback` and `/api/mpesa/status` Express handlers, the
in-memory `ORDERS` map, and the client-side `pollForPayment` loop).

JavaScript values are modelled by `JVal` (JSON values plus `undefined`);
request handlers are pure functions from the current `ORDERS` store and the
request payload to the next store and an HTTP response.  The one reachable
exception site (member access on a `null` element of `CallbackMetadata.Item`
inside the callback's `forEach`) is modelled with `Except`; the surrounding
`try`/`catch` becomes a `match` producing the 500 response.
-/

/-- JavaScript runtime values as they occur in this server: JSON values
plus `undefined`.  Numbers are modelled as integers (all numeric values
appearing in this subsystem — result codes, amounts, phone numbers — are
integral). -/
inductive JVal where
  | undefined : JVal
  | jnull : JVal
  | jbool : Bool → JVal
  | jnum : Int → JVal
  | jstr : String → JVal
  | jarr : List JVal → JVal
  | jobj : List (String × JVal) → JVal
deriving Repr

/-- JavaScript truthiness: `undefined`, `null`, `false`, `0` and `""` are
falsy; every object and array is truthy. -/
def truthy : JVal → Bool
  | .undefined => false
  | .jnull => false
  | .jbool b => b
  | .jnum n => n ≠ 0
  | .jstr s => s ≠ ""
  | .jarr _ => true
  | .jobj _ => true

/-- JavaScript `a || b`. -/
def jsOr (a b : JVal) : JVal := if truthy a then a else b

/-- Member access `v.k`.  Absent members and members of non-object values
evaluate to `undefined`.  Callers in the embedded handlers only apply this
to values already guarded to be neither `null` nor `undefined` (where the
source would throw); the single unguarded access in the source (on the
callback metadata items) is modelled separately in `buildDetail`. -/
def getMem (v : JVal) (k : String) : JVal :=
  match v with
  | .jobj fs => (fs.lookup k).getD .undefined
  | _ => .undefined

/-- Property assignment `o[k] = v` on a plain object: updates the existing
key in place, otherwise appends. -/
def setProp : List (String × JVal) → String → JVal → List (String × JVal)
  | [], k, v => [(k, v)]
  | (k₁, v₁) :: r, k, v =>
      if k₁ = k then (k, v) :: r else (k₁, v₁) :: setProp r k v

/-- `Object.assign(base, src)`: copies the properties of `src` onto `base`
left to right, later writes overriding earlier ones. -/
def objAssign (base src : List (String × JVal)) : List (String × JVal) :=
  src.foldl (fun acc kv => setProp acc kv.1 kv.2) base

mutual

/-- Array-to-string coercion (`Array.prototype.toString`): elements joined
with commas, `null`/`undefined` elements rendered empty. -/
def jsArrJoin : List JVal → String
  | [] => ""
  | [x] => jsElem x
  | x :: xs => jsElem x ++ "," ++ jsArrJoin xs

def jsElem : JVal → String
  | .undefined => ""
  | .jnull => ""
  | .jbool b => cond b "true" "false"
  | .jnum n => toString n
  | .jstr s => s
  | .jobj _ => "[object Object]"
  | .jarr ys => jsArrJoin ys

end

/-- JavaScript string coercion of a value used as a computed property key
(`detail[i.Name] = ...`). -/
def jsKey : JVal → String
  | .undefined => "undefined"
  | .jnull => "null"
  | .jbool b => cond b "true" "false"
  | .jnum n => toString n
  | .jstr s => s
  | .jobj _ => "[object Object]"
  | .jarr xs => jsArrJoin xs

/-- One payment-intent record of the `ORDERS` map: the object literal
`{ status, detail }` stored by the stkpush and callback handlers. -/
structure Intent where
  status : String
  detail : JVal
deriving Repr

/-- JavaScript `Map` key equality (SameValueZero) restricted to this
server's use: primitive keys compare structurally; object and array keys
compare by reference, and since every request parses a fresh payload two
such keys are never identical, so they are modelled as never equal. -/
def sameValueZero : JVal → JVal → Bool
  | .undefined, .undefined => true
  | .jnull, .jnull => true
  | .jbool a, .jbool b => a == b
  | .jnum a, .jnum b => a == b
  | .jstr a, .jstr b => a == b
  | _, _ => false

/-- A key is a JavaScript primitive (SameValueZero is reflexive on it). -/
def isPrim : JVal → Bool
  | .jarr _ => false
  | .jobj _ => false
  | _ => true

/-- The in-memory `ORDERS` map, insertion-ordered. -/
abbrev Store := List (JVal × Intent)

/-- `ORDERS.get k`. -/
def getStore : Store → JVal → Option Intent
  | [], _ => none
  | (k₁, it) :: r, k => if sameValueZero k₁ k then some it else getStore r k

/-- `ORDERS.set k it`: replaces the value at an existing key, otherwise
appends. -/
def setStore : Store → JVal → Intent → Store
  | [], k, it => [(k, it)]
  | (k₁, it₁) :: r, k, it =>
      if sameValueZero k₁ k then (k, it) :: r else (k₁, it₁) :: setStore r k it

/-- An HTTP response: status code and JSON body. -/
structure HResp where
  status : Nat
  body : JVal
deriving Repr

/- ----------------------------------------------------------------
   POST /api/mpesa/callback  (server.js lines 95–131)
   ---------------------------------------------------------------- -/

/-- Envelope extraction, server.js line 100:
`const stk = (body.Body && body.Body.stkCallback) || body.stkCallback || null`
applied to `const body = req.body || {}`. -/
def stkOf (p : JVal) : JVal :=
  let body := jsOr p (.jobj [])
  let t := getMem body "Body"
  let a := if truthy t then getMem t "stkCallback" else t
  let b := jsOr a (getMem body "stkCallback")
  jsOr b .jnull

/-- `stk.CheckoutRequestID` (evaluated in the source only under the guard
`stk && stk.CheckoutRequestID`, so `stkOf p` is truthy at every use). -/
def cidOf (p : JVal) : JVal := getMem (stkOf p) "CheckoutRequestID"

/-- `stk.ResultCode`. -/
def rcOf (p : JVal) : JVal := getMem (stkOf p) "ResultCode"

/-- `stk.ResultDesc || ''`. -/
def rdOf (p : JVal) : JVal := jsOr (getMem (stkOf p) "ResultDesc") (.jstr "")

/-- `stk.CallbackMetadata || stk.callbackMetadata || null`. -/
def metaOf (p : JVal) : JVal :=
  jsOr (jsOr (getMem (stkOf p) "CallbackMetadata")
             (getMem (stkOf p) "callbackMetadata")) .jnull

/-- The value whose array-ness is tested by
`meta && Array.isArray(meta.Item)`; when `meta` is falsy the conjunction
short-circuits, modelled by returning the non-array `null`. -/
def itemsOf (p : JVal) : JVal :=
  if truthy (metaOf p) then getMem (metaOf p) "Item" else .jnull

/-- `resultCode === 0`: strict equality with the number `0`. -/
def strictEqZero : JVal → Bool
  | .jnum n => n == 0
  | _ => false

/-- Strict equality with `undefined` (`v === undefined`). -/
def isUndefined : JVal → Bool
  | .undefined => true
  | _ => false

/-- The success-branch `meta.Item.forEach` loop:
`if(i.Name && i.Value !== undefined) detail[i.Name] = i.Value`.
Member access `i.Name` throws a `TypeError` when `i` is `null` (or
`undefined`), modelled as `Except.error`. -/
def buildDetail : List JVal → List (String × JVal) → Except Unit (List (String × JVal))
  | [], acc => .ok acc
  | .jnull :: _, _ => .error ()
  | .undefined :: _, _ => .error ()
  | i :: rest, acc =>
      if truthy (getMem i "Name") && !isUndefined (getMem i "Value") then
        buildDetail rest (setProp acc (jsKey (getMem i "Name")) (getMem i "Value"))
      else buildDetail rest acc

/-- The callback handler's decision, a function of the payload alone:
either an exception (`error`), no store write (the envelope guard failed),
or a single `ORDERS.set` of the computed intent. -/
def callbackDecision (p : JVal) : Except Unit (Option (JVal × Intent)) :=
  if truthy (stkOf p) && truthy (cidOf p) then
    if strictEqZero (rcOf p) then
      match itemsOf p with
      | .jarr xs =>
          match buildDetail xs [] with
          | .ok d => .ok (some (cidOf p,
              ⟨"SUCCESS", .jobj (objAssign [("ResultDesc", rdOf p)] d)⟩))
          | .error e => .error e
      | _ => .ok (some (cidOf p, ⟨"SUCCESS", .jobj [("ResultDesc", rdOf p)]⟩))
    else
      .ok (some (cidOf p,
        ⟨"FAILED", .jobj [("ResultCode", rcOf p), ("ResultDesc", rdOf p)]⟩))
  else .ok none

/-- The acknowledgment `res.json({ ResultCode: 0, ResultDesc: 'Received' })`. -/
def cbAck : HResp :=
  ⟨200, .jobj [("ResultCode", .jnum 0), ("ResultDesc", .jstr "Received")]⟩

/-- The catch branch `res.status(500).json({ error: 'callback processing error' })`. -/
def cbErr : HResp :=
  ⟨500, .jobj [("error", .jstr "callback processing error")]⟩

/-- `POST /api/mpesa/callback`: applies the decision to the store; the
`try`/`catch` maps an exception to the 500 response (the throw site
precedes the single `ORDERS.set`, so the store is unchanged then). -/
def callbackHandler (s : Store) (p : JVal) : Store × HResp :=
  match callbackDecision p with
  | .ok none => (s, cbAck)
  | .ok (some (k, it)) => (setStore s k it, cbAck)
  | .error _ => (s, cbErr)

/- ----------------------------------------------------------------
   POST /api/mpesa/stkpush  (server.js lines 46–92)
   ---------------------------------------------------------------- -/

/-- The msisdn normalization of server.js lines 55–57: strip whitespace,
drop a leading `+`, rewrite a leading `0` to `254`. -/
def normalizeMsisdn (phone : String) : String :=
  let m : String := ⟨phone.data.filter (fun c => ¬ c.isWhitespace)⟩
  let m := if m.startsWith "+" then m.drop 1 else m
  if m.startsWith "0" then "254" ++ m.drop 1 else m

/-- server.js line 82: `responseData.CheckoutRequestID ||
responseData.checkoutRequestID || responseData.CheckoutRequestId`. -/
def chkIdOf (responseData : JVal) : JVal :=
  jsOr (jsOr (getMem responseData "CheckoutRequestID")
             (getMem responseData "checkoutRequestID"))
       (getMem responseData "CheckoutRequestId")

/-- `POST /api/mpesa/stkpush`.  `envOk` is the truthiness of
`MPESA_SHORTCODE && MPESA_PASSKEY && MPESA_CALLBACK_URL`; `gw` is the
combined outcome of `getAccessToken()` and the `axios.post` to the gateway
(`.ok` carries `mpRes.data`, `.error` carries the value the catch branch
reports as `detail`).  A gateway exception reaches the catch before any
store write. -/
def stkpushHandler (s : Store) (reqBody : JVal) (envOk : Bool)
    (gw : Except JVal JVal) : Store × HResp :=
  let phone := getMem reqBody "phone"
  let amount := getMem reqBody "amount"
  if !truthy phone || !truthy amount then
    (s, ⟨400, .jobj [("error", .jstr "phone and amount required")]⟩)
  else if !envOk then
    (s, ⟨500, .jobj [("error",
      .jstr "MPESA_SHORTCODE/MPESA_PASSKEY/MPESA_CALLBACK_URL not set")]⟩)
  else
    match gw with
    | .error e =>
        (s, ⟨500, .jobj [("error", .jstr "STK push failed"), ("detail", e)]⟩)
    | .ok dat =>
        let responseData := jsOr dat (.jobj [])
        let checkoutId := chkIdOf responseData
        let s₁ := if truthy checkoutId
          then setStore s checkoutId ⟨"PENDING", responseData⟩ else s
        (s₁, ⟨200, .jobj [("success", .jbool true), ("data", responseData)]⟩)

/- ----------------------------------------------------------------
   GET /api/mpesa/status  (server.js lines 134–144)
   ---------------------------------------------------------------- -/

/-- `GET /api/mpesa/status`.  The argument is `req.query.checkoutId`:
`none` when the query parameter is absent, `some v` when present with
value `v` (an absent parameter is `undefined`, falsy; a present one is a
string, falsy exactly when empty). -/
def statusHandler (s : Store) (q : Option String) : HResp :=
  let checkoutId : JVal := match q with
    | none => .undefined
    | some v => .jstr v
  if !truthy checkoutId then
    ⟨400, .jobj [("error", .jstr "checkoutId required")]⟩
  else
    match getStore s checkoutId with
    | none => ⟨200, .jobj [("status", .jstr "PENDING")]⟩
    | some r => ⟨200, .jobj [("status", .jstr r.status),
                             ("detail", jsOr r.detail .jnull)]⟩

/- ----------------------------------------------------------------
   Client-side pollForPayment  (demo poller, lines 202–229 of the
   concatenated client script in server.js)
   ---------------------------------------------------------------- -/

/-- One timer tick of the demo `pollForPayment` loop after `attempts++`:
at `attempts === 3` it clears the interval and displays the confirmation
message; at `attempts >= max` (`max = 8`) it clears the interval and
displays the not-confirmed message.  The loop performs no status fetch
(the `fetch` to `/api/mpesa/status` is commented out in the source), so
this function has no server-state input at all. -/
def pollTick (attempts : Nat) : Option String :=
  if attempts = 3 then
    some "<strong>Payment confirmed — thank you! 🎉</strong>"
  else if attempts ≥ 8 then
    some "Payment not confirmed yet. Check your phone or try again later."
  else none

/-- Runs the demo polling loop from the given attempt counter for at most
`fuel` ticks, returning the attempt number and message displayed when the
interval is cleared. -/
def pollForPayment : Nat → Nat → Option (Nat × String)
  | 0, _ => none
  | fuel + 1, attempts =>
      let a := attempts + 1
      match pollTick a with
      | some msg => some (a, msg)
      | none => pollForPayment fuel a

/- ----------------------------------------------------------------
   Payload builders used in theorem statements (test inputs, shaped
   after the vendor's documented callback format)
   ---------------------------------------------------------------- -/

/-- A callback body with the vendor envelope
`Body.stkCallback.{CheckoutRequestID, ResultCode, ResultDesc, CallbackMetadata}`. -/
def mkCallback (cid : String) (rc rd meta : JVal) : JVal :=
  .jobj [("Body", .jobj [("stkCallback", .jobj
    [("CheckoutRequestID", .jstr cid),
     ("ResultCode", rc),
     ("ResultDesc", rd),
     ("CallbackMetadata", meta)])])]

/-- The canonical success metadata: the amount, receipt-number and phone
name/value items. -/
def mkItems3 (amount receipt phone : JVal) : JVal :=
  .jobj [("Item", .jarr
    [.jobj [("Name", .jstr "Amount"), ("Value", amount)],
     .jobj [("Name", .jstr "MpesaReceiptNumber"), ("Value", receipt)],
     .jobj [("Name", .jstr "PhoneNumber"), ("Value", phone)]])]

/-- Does the metadata item list contain a `null`/`undefined` entry (the
values on which the `forEach` body's member access throws)? -/
def hasNullishItem : List JVal → Bool
  | [] => false
  | .jnull :: _ => true
  | .undefined :: _ => true
  | _ :: r => hasNullishItem r

/-- The exact condition under which the callback handler's `try` block
throws: the payload reaches the success branch and its metadata item list
contains a `null`/`undefined` entry. -/
def cbThrows (p : JVal) : Bool :=
  (truthy (stkOf p) && truthy (cidOf p)) && strictEqZero (rcOf p) &&
    (match itemsOf p with
     | .jarr xs => hasNullishItem xs
     | _ => false)

/-- A store holding a terminal (SUCCESS) intent for `ws_1`. -/
def c1Store : Store :=
  [(.jstr "ws_1", ⟨"SUCCESS",
    .jobj [("ResultDesc", .jstr "The service request is processed successfully."),
           ("MpesaReceiptNumber", .jstr "QAX123")]⟩)]

/-- A later duplicate callback for `ws_1` reporting failure 1032. -/
def c1Payload : JVal :=
  mkCallback "ws_1" (.jnum 1032) (.jstr "Request cancelled by user") .jnull

/-- A success callback whose metadata item list contains a JSON `null`
entry: the `forEach` body evaluates `i.Name` on `null` and throws. -/
def c2Payload : JVal :=
  mkCallback "ws_2" (.jnum 0)
    (.jstr "The service request is processed successfully.")
    (.jobj [("Item", .jarr [.jnull])])

/-- An initiation request with a non-Kenyan phone string and a negative
amount. -/
def c5Body : JVal :=
  .jobj [("phone", .jstr "not-a-kenyan-number"), ("amount", .jnum (-5))]

/-- A gateway acceptance response for that request. -/
def c5GwData : JVal :=
  .jobj [("MerchantRequestID", .jstr "mr_5"),
         ("CheckoutRequestID", .jstr "ws_5"),
         ("ResponseCode", .jstr "0")]

/-- A valid initiation body and its gateway acceptance data. -/
def c7Body : JVal :=
  .jobj [("phone", .jstr "0712345678"), ("amount", .jnum 150)]

/-- Gateway response stored verbatim as the PENDING intent's detail. -/
def c7GwData : JVal :=
  .jobj [("MerchantRequestID", .jstr "mr_7"),
         ("CheckoutRequestID", .jstr "ws_7"),
         ("ResponseCode", .jstr "0")]

/- ----------------------------------------------------------------
   Store lemmas
   ---------------------------------------------------------------- -/

lemma svz_symm (a b : JVal) : sameValueZero a b = sameValueZero b a := by
  cases a <;> cases b <;> simp [sameValueZero, eq_comm]

lemma svz_congr {a b : JVal} (h : sameValueZero a b = true) (c : JVal) :
    sameValueZero a c = sameValueZero b c := by
  cases a <;> cases b <;> simp_all [sameValueZero]

lemma svz_refl {k : JVal} (h : isPrim k = true) : sameValueZero k k = true := by
  cases k <;> simp_all [sameValueZero, isPrim]

/-- Reading the store after `ORDERS.set`. -/
lemma getStore_setStore (s : Store) (k : JVal) (it : Intent) (q : JVal) :
    getStore (setStore s k it) q =
      if sameValueZero k q then some it else getStore s q := by
  induction s with
  | nil => rfl
  | cons hd tl ih =>
    obtain ⟨k₁, it₁⟩ := hd
    by_cases h : sameValueZero k₁ k = true
    · have hc := svz_congr h q
      by_cases hq : sameValueZero k q = true <;>
        simp [setStore, getStore, h, hq, hc, ih]
    · have h' : sameValueZero k₁ k = false := by simpa using h
      by_cases hq1 : sameValueZero k₁ q = true
      · have hq : sameValueZero k q = false := by
          by_contra hk
          have hk' : sameValueZero k q = true := by simpa using hk
          have e1 := svz_congr hq1 k
          rw [svz_symm q k, hk', h'] at e1
          exact Bool.false_ne_true e1
        simp [setStore, getStore, h', hq1, hq]
      · have hq1' : sameValueZero k₁ q = false := by simpa using hq1
        by_cases hq : sameValueZero k q = true <;>
          simp [setStore, getStore, h', hq1', hq, ih]

/- ----------------------------------------------------------------
   Supporting lemmas about the callback computation
   ---------------------------------------------------------------- -/

lemma strictEqZero_iff (v : JVal) : strictEqZero v = true ↔ v = .jnum 0 := by
  cases v <;> simp [strictEqZero]

lemma strictEqZero_eq_false {v : JVal} (h : v ≠ .jnum 0) :
    strictEqZero v = false := by
  cases hz : strictEqZero v
  · rfl
  · exact absurd ((strictEqZero_iff v).1 hz) h

lemma isUndefined_eq_false {v : JVal} (h : v ≠ .undefined) : isUndefined v = false := by
  cases v <;> simp_all [isUndefined]

lemma buildDetail_ok (xs : List JVal) (acc : List (String × JVal))
    (h : hasNullishItem xs = false) : ∃ d, buildDetail xs acc = .ok d := by
  induction xs generalizing acc with
  | nil => exact ⟨acc, rfl⟩
  | cons i rest ih =>
    cases i with
    | jnull => simp [hasNullishItem] at h
    | undefined => simp [hasNullishItem] at h
    | jbool b =>
        have h' : hasNullishItem rest = false := by simpa [hasNullishItem] using h
        simp only [buildDetail]; split <;> exact ih _ h'
    | jnum n =>
        have h' : hasNullishItem rest = false := by simpa [hasNullishItem] using h
        simp only [buildDetail]; split <;> exact ih _ h'
    | jstr s =>
        have h' : hasNullishItem rest = false := by simpa [hasNullishItem] using h
        simp only [buildDetail]; split <;> exact ih _ h'
    | jarr ys =>
        have h' : hasNullishItem rest = false := by simpa [hasNullishItem] using h
        simp only [buildDetail]; split <;> exact ih _ h'
    | jobj fs =>
        have h' : hasNullishItem rest = false := by simpa [hasNullishItem] using h
        simp only [buildDetail]; split <;> exact ih _ h'

lemma buildDetail_error (xs : List JVal) (acc : List (String × JVal))
    (h : hasNullishItem xs = true) : buildDetail xs acc = .error () := by
  induction xs generalizing acc with
  | nil => simp [hasNullishItem] at h
  | cons i rest ih =>
    cases i with
    | jnull => rfl
    | undefined => rfl
    | jbool b =>
        have h' : hasNullishItem rest = true := by simpa [hasNullishItem] using h
        simp only [buildDetail]; split <;> exact ih _ h'
    | jnum n =>
        have h' : hasNullishItem rest = true := by simpa [hasNullishItem] using h
        simp only [buildDetail]; split <;> exact ih _ h'
    | jstr s =>
        have h' : hasNullishItem rest = true := by simpa [hasNullishItem] using h
        simp only [buildDetail]; split <;> exact ih _ h'
    | jarr ys =>
        have h' : hasNullishItem rest = true := by simpa [hasNullishItem] using h
        simp only [buildDetail]; split <;> exact ih _ h'
    | jobj fs =>
        have h' : hasNullishItem rest = true := by simpa [hasNullishItem] using h
        simp only [buildDetail]; split <;> exact ih _ h'

/- ----------------------------------------------------------------
   Claim theorems
   ---------------------------------------------------------------- -/

/-- Claim C1 is false on the code: the intent for `ws_1` is stored as
`SUCCESS`, yet a subsequent callback with result code 1032 overwrites both
its status and its detail — the callback handler performs `ORDERS.set`
without consulting the existing record, so terminal states are not
sticky. -/
theorem c1_counterexample_terminal_overwritten :
    getStore c1Store (.jstr "ws_1") =
      some ⟨"SUCCESS",
        .jobj [("ResultDesc", .jstr "The service request is processed successfully."),
               ("MpesaReceiptNumber", .jstr "QAX123")]⟩ ∧
    getStore ((callbackHandler c1Store c1Payload).1) (.jstr "ws_1") =
      some ⟨"FAILED",
        .jobj [("ResultCode", .jnum 1032),
               ("ResultDesc", .jstr "Request cancelled by user")]⟩ ∧
    "FAILED" ≠ "SUCCESS" :=
  ⟨rfl, rfl, by decide⟩

/-- Claim C2 is false on the code: this payload makes the callback handler
take its catch branch and answer HTTP 500 `{ error: 'callback processing
error' }` instead of the 200 acknowledgment — the internal processing
failure is surfaced to the vendor caller. -/
theorem c2_counterexample_internal_error_surfaced :
    callbackHandler [] c2Payload = ([], cbErr) ∧
    (callbackHandler [] c2Payload).2.status = 500 ∧
    (callbackHandler [] c2Payload).2.status ≠ 200 :=
  ⟨rfl, rfl, by decide⟩

/-- Claim C4 is false at the empty-string id: `""` is a correlation id not
present in the store, yet the status endpoint answers 400 (the guard
`!checkoutId` treats the present-but-empty query value as missing) rather
than `{ status: 'PENDING' }`. -/
theorem c4_counterexample_empty_id_rejected :
    getStore [] (.jstr "") = none ∧
    statusHandler [] (some "") =
      ⟨400, .jobj [("error", .jstr "checkoutId required")]⟩ ∧
    statusHandler [] (some "") ≠ ⟨200, .jobj [("status", .jstr "PENDING")]⟩ := by
  refine ⟨rfl, rfl, ?_⟩
  intro h
  have : (400 : Nat) = 200 := congrArg HResp.status h
  omega

/-- Claim C5 is false on the code: the stkpush endpoint only checks that
`phone` and `amount` are truthy, so a negative amount and an arbitrary
phone string are not rejected — no 400 is returned, the gateway call
proceeds, and a PENDING intent is created. -/
theorem c5_counterexample_no_server_validation :
    stkpushHandler [] c5Body true (.ok c5GwData) =
      ([(.jstr "ws_5", ⟨"PENDING", c5GwData⟩)],
       ⟨200, .jobj [("success", .jbool true), ("data", c5GwData)]⟩) ∧
    (stkpushHandler [] c5Body true (.ok c5GwData)).2.status ≠ 400 :=
  ⟨rfl, by decide⟩

/-- Claim C7 is false on the code: a freshly created PENDING intent carries
`detail: responseData` (the raw gateway response), so detail is present —
and the status endpoint exposes it — before any terminal callback. -/
theorem c7_counterexample_pending_detail_present :
    getStore ((stkpushHandler [] c7Body true (.ok c7GwData)).1) (.jstr "ws_7") =
      some ⟨"PENDING", c7GwData⟩ ∧
    c7GwData ≠ .jnull ∧ c7GwData ≠ .undefined ∧
    statusHandler ((stkpushHandler [] c7Body true (.ok c7GwData)).1) (some "ws_7") =
      ⟨200, .jobj [("status", .jstr "PENDING"), ("detail", c7GwData)]⟩ := by
  refine ⟨rfl, by simp [c7GwData], by simp [c7GwData], rfl⟩

/-- Claim C8 fails on the shipped demo poller, as the source itself admits
(`TODO: replace with actual fetch`, `DEMO only: ... pretend success`): the
loop performs no status query at all — `pollForPayment` has no server-state
input — yet at the third tick it displays the payment-confirmed message;
and the not-confirmed (timeout) branch at `attempts >= 8` is unreachable
from a fresh start because the third tick always clears the interval
first. -/
theorem c8_demo_poller_fabricates_success :
    pollForPayment 8 0 =
      some (3, "<strong>Payment confirmed — thank you! 🎉</strong>") ∧
    ∀ fuel, pollForPayment fuel 0 = none ∨
      pollForPayment fuel 0 =
        some (3, "<strong>Payment confirmed — thank you! 🎉</strong>") := by
  refine ⟨rfl, ?_⟩
  intro fuel
  match fuel with
  | 0 => exact Or.inl rfl
  | 1 => exact Or.inl rfl
  | 2 => exact Or.inl rfl
  | (n + 3) => exact Or.inr rfl

/-- Claim C9 (confirmed): when the envelope guard of the callback handler
fails — no truthy `stkCallback` object or no truthy `CheckoutRequestID` in
it — the endpoint still answers 200 with the acknowledgment body and the
`ORDERS` store is returned completely unchanged: no intent is created and
no existing intent is altered. -/
theorem c9_malformed_callback_ack_and_frame (s : Store) (p : JVal)
    (h : (truthy (stkOf p) && truthy (cidOf p)) = false) :
    callbackHandler s p = (s, cbAck) := by
  simp [callbackHandler, callbackDecision, h]

/-- Witness for C9: a body without any `stkCallback` envelope leaves a
store holding a terminal intent untouched and is acknowledged with 200. -/
theorem c9_witness :
    callbackHandler [(.jstr "ws_9", ⟨"SUCCESS", .jobj [("Amount", .jnum 150)]⟩)]
        (.jobj [("foo", .jstr "bar")]) =
      ([(.jstr "ws_9", ⟨"SUCCESS", .jobj [("Amount", .jnum 150)]⟩)], cbAck) :=
  c9_malformed_callback_ack_and_frame
    [(.jstr "ws_9", ⟨"SUCCESS", .jobj [("Amount", .jnum 150)]⟩)]
    (.jobj [("foo", .jstr "bar")]) rfl

/-- Claim C10 (confirmed): the callback handler's success test is strict
equality with the number `0`; any payload with a valid envelope whose
`ResultCode` is not the number `0` — including the string `"0"` and an
absent `ResultCode` (`undefined`) — stores the intent as `FAILED` with the
code and description, never as `SUCCESS`. -/
theorem c10_strict_zero_check (s : Store) (p : JVal)
    (hg : (truthy (stkOf p) && truthy (cidOf p)) = true)
    (hz : strictEqZero (rcOf p) = false) :
    callbackHandler s p =
      (setStore s (cidOf p)
        ⟨"FAILED", .jobj [("ResultCode", rcOf p), ("ResultDesc", rdOf p)]⟩,
       cbAck) := by
  simp [callbackHandler, callbackDecision, hg, hz]

/-- Witness for C10: a callback whose `ResultCode` is the string `"0"`
(not the number `0`) is recorded as `FAILED`. -/
theorem c10_witness :
    callbackHandler []
        (mkCallback "ws_10" (.jstr "0") (.jstr "Processed") .jnull) =
      ([(.jstr "ws_10",
         ⟨"FAILED", .jobj [("ResultCode", .jstr "0"),
                           ("ResultDesc", .jstr "Processed")]⟩)],
       cbAck) :=
  c10_strict_zero_check []
    (mkCallback "ws_10" (.jstr "0") (.jstr "Processed") .jnull) rfl rfl

/-- Claim C2 amended: the callback endpoint answers 200 with
`{ ResultCode: 0, ResultDesc: 'Received' }` for every payload except the
ones whose processing throws — exactly the success-branch payloads whose
metadata item list contains a `null`/`undefined` entry — which instead get
the catch branch's 500 `{ error: 'callback processing error' }`. -/
theorem c2_amended_ack_unless_throw (s : Store) (p : JVal) :
    (callbackHandler s p).2 = (if cbThrows p then cbErr else cbAck) := by
  by_cases hg : (truthy (stkOf p) && truthy (cidOf p)) = true
  · by_cases hz : strictEqZero (rcOf p) = true
    · cases hit : itemsOf p with
      | jarr xs =>
          by_cases hn : hasNullishItem xs = true
          · simp [callbackHandler, callbackDecision, cbThrows, hg, hz, hit,
                  buildDetail_error xs [] hn, hn]
          · have hn' : hasNullishItem xs = false := by simpa using hn
            obtain ⟨d, hd⟩ := buildDetail_ok xs [] hn'
            simp [callbackHandler, callbackDecision, cbThrows, hg, hz, hit,
                  hd, hn']
      | undefined => simp [callbackHandler, callbackDecision, cbThrows, hg, hz, hit]
      | jnull => simp [callbackHandler, callbackDecision, cbThrows, hg, hz, hit]
      | jbool b => simp [callbackHandler, callbackDecision, cbThrows, hg, hz, hit]
      | jnum n => simp [callbackHandler, callbackDecision, cbThrows, hg, hz, hit]
      | jstr t => simp [callbackHandler, callbackDecision, cbThrows, hg, hz, hit]
      | jobj fs => simp [callbackHandler, callbackDecision, cbThrows, hg, hz, hit]
    · have hz' : strictEqZero (rcOf p) = false := by simpa using hz
      simp [callbackHandler, callbackDecision, cbThrows, hg, hz']
  · have hg' : (truthy (stkOf p) && truthy (cidOf p)) = false := by simpa using hg
    simp [callbackHandler, callbackDecision, cbThrows, hg']

/-- Claim C3 (confirmed): on a callback with a valid envelope carrying
correlation id `cid`, the three canonical name/value metadata items and
result description `rd`: result code number `0` stores the intent as
`SUCCESS` with detail populated from the items (plus the result
description), and any other result code stores it as `FAILED` with the
code and description. -/
theorem c3_callback_outcome_mapping (s : Store) (cid : String)
    (rc rd amount receipt phone : JVal)
    (hcid : cid ≠ "") (ha : amount ≠ .undefined) (hr : receipt ≠ .undefined)
    (hp : phone ≠ .undefined) :
    (rc = .jnum 0 →
      callbackHandler s (mkCallback cid rc rd (mkItems3 amount receipt phone)) =
        (setStore s (.jstr cid)
          ⟨"SUCCESS", .jobj [("ResultDesc", jsOr rd (.jstr "")),
                             ("Amount", amount),
                             ("MpesaReceiptNumber", receipt),
                             ("PhoneNumber", phone)]⟩, cbAck)) ∧
    (rc ≠ .jnum 0 →
      callbackHandler s (mkCallback cid rc rd (mkItems3 amount receipt phone)) =
        (setStore s (.jstr cid)
          ⟨"FAILED", .jobj [("ResultCode", rc),
                            ("ResultDesc", jsOr rd (.jstr ""))]⟩, cbAck)) := by
  constructor
  · intro h
    subst h
    simp [callbackHandler, callbackDecision, mkCallback, mkItems3, stkOf,
          cidOf, rcOf, rdOf, metaOf, itemsOf, getMem, List.lookup, jsOr,
          truthy, hcid, strictEqZero, buildDetail, isUndefined_eq_false ha,
          isUndefined_eq_false hr, isUndefined_eq_false hp, jsKey, setProp, objAssign]
  · intro h
    simp [callbackHandler, callbackDecision, mkCallback, mkItems3, stkOf,
          cidOf, rcOf, rdOf, metaOf, itemsOf, getMem, List.lookup, jsOr,
          truthy, hcid, strictEqZero_eq_false h]

/-- Witness for C3: the spec's two scenario instances — result code `0`
with amount 150, receipt `QAX123` and a phone number yields a `SUCCESS`
intent with that detail, and result code `1032` yields a `FAILED` intent
with the code and description. -/
theorem c3_witness :
    callbackHandler []
        (mkCallback "ws_1" (.jnum 0)
          (.jstr "The service request is processed successfully.")
          (mkItems3 (.jnum 150) (.jstr "QAX123") (.jnum 254712345678))) =
      ([(.jstr "ws_1",
         ⟨"SUCCESS",
          .jobj [("ResultDesc", .jstr "The service request is processed successfully."),
                 ("Amount", .jnum 150),
                 ("MpesaReceiptNumber", .jstr "QAX123"),
                 ("PhoneNumber", .jnum 254712345678)]⟩)], cbAck) ∧
    callbackHandler []
        (mkCallback "ws_1" (.jnum 1032) (.jstr "Request cancelled by user")
          (mkItems3 (.jnum 150) (.jstr "QAX123") (.jnum 254712345678))) =
      ([(.jstr "ws_1",
         ⟨"FAILED", .jobj [("ResultCode", .jnum 1032),
                           ("ResultDesc", .jstr "Request cancelled by user")]⟩)],
       cbAck) :=
  ⟨(c3_callback_outcome_mapping [] "ws_1" (.jnum 0)
      (.jstr "The service request is processed successfully.")
      (.jnum 150) (.jstr "QAX123") (.jnum 254712345678)
      (by decide) (by simp) (by simp) (by simp)).1 rfl,
   (c3_callback_outcome_mapping [] "ws_1" (.jnum 1032)
      (.jstr "Request cancelled by user")
      (.jnum 150) (.jstr "QAX123") (.jnum 254712345678)
      (by decide) (by simp) (by simp) (by simp)).2 (by simp)⟩

/-- Claim C4 amended: a missing or empty `checkoutId` query parameter gets
400 with an error message; every nonempty correlation id not present in
the store gets `{ status: 'PENDING' }`, never an error. -/
theorem c4_amended_status_query (s : Store) (id : String) (h : id ≠ "")
    (hu : getStore s (.jstr id) = none) :
    statusHandler s none = ⟨400, .jobj [("error", .jstr "checkoutId required")]⟩ ∧
    statusHandler s (some "") = ⟨400, .jobj [("error", .jstr "checkoutId required")]⟩ ∧
    statusHandler s (some id) = ⟨200, .jobj [("status", .jstr "PENDING")]⟩ := by
  refine ⟨rfl, rfl, ?_⟩
  simp [statusHandler, truthy, h, hu]

/-- Witness for C4: on the empty store, the id `ws_4` is unknown and polls
as `PENDING`, while an absent or empty parameter gets 400. -/
theorem c4_witness :
    statusHandler [] none = ⟨400, .jobj [("error", .jstr "checkoutId required")]⟩ ∧
    statusHandler [] (some "") = ⟨400, .jobj [("error", .jstr "checkoutId required")]⟩ ∧
    statusHandler [] (some "ws_4") = ⟨200, .jobj [("status", .jstr "PENDING")]⟩ :=
  c4_amended_status_query [] "ws_4" (by decide) rfl

/-- Claim C5 amended: the stkpush endpoint's only request validation is a
presence (truthiness) check — a missing or falsy `phone` or `amount` gets
400 `{ error: 'phone and amount required' }` with the store untouched and
no gateway call (the result is the same for every gateway outcome), and
whenever both fields are truthy no 400 is ever produced: the endpoint does
not validate a Kenyan phone pattern or `amount > 0` (those checks exist
only client-side and in the alternate server variant). -/
theorem c5_amended_presence_check_only (s : Store) (body : JVal)
    (envOk : Bool) (gw : Except JVal JVal) :
    ((truthy (getMem body "phone") = false ∨
      truthy (getMem body "amount") = false) →
      stkpushHandler s body envOk gw =
        (s, ⟨400, .jobj [("error", .jstr "phone and amount required")]⟩)) ∧
    (truthy (getMem body "phone") = true →
     truthy (getMem body "amount") = true →
      ((stkpushHandler s body envOk gw).2.status = 500 ∨
       (stkpushHandler s body envOk gw).2.status = 200)) := by
  constructor
  · intro h
    cases h with
    | inl h₁ => simp [stkpushHandler, h₁]
    | inr h₂ => simp [stkpushHandler, h₂]
  · intro h₁ h₂
    cases envOk with
    | false => simp [stkpushHandler, h₁, h₂]
    | true =>
        cases gw with
        | error e => simp [stkpushHandler, h₁, h₂]
        | ok d => simp [stkpushHandler, h₁, h₂]

/-- Witness for C5 amended: `amount: 0` is falsy, so the request is
rejected with the presence-check 400 before any gateway interaction; and
with both fields truthy the response is never a 400. -/
theorem c5_witness :
    stkpushHandler [] (.jobj [("phone", .jstr "0712345678"), ("amount", .jnum 0)])
        true (.ok (.jobj [])) =
      ([], ⟨400, .jobj [("error", .jstr "phone and amount required")]⟩) ∧
    ((stkpushHandler [] (.jobj [("phone", .jstr "abc"), ("amount", .jnum (-5))])
        true (.ok (.jobj []))).2.status = 500 ∨
     (stkpushHandler [] (.jobj [("phone", .jstr "abc"), ("amount", .jnum (-5))])
        true (.ok (.jobj []))).2.status = 200) :=
  ⟨(c5_amended_presence_check_only []
      (.jobj [("phone", .jstr "0712345678"), ("amount", .jnum 0)])
      true (.ok (.jobj []))).1 (Or.inr rfl),
   (c5_amended_presence_check_only []
      (.jobj [("phone", .jstr "abc"), ("amount", .jnum (-5))])
      true (.ok (.jobj []))).2 rfl rfl⟩

/-- Claim C6 (confirmed): with a truthy `phone` and `amount` and the
environment configured, initiation either surfaces the gateway failure
synchronously as a 500 leaving the store unchanged, or — when the gateway
acceptance data carries a truthy (primitive) `CheckoutRequestID` — returns
200 with the response data (which contains the correlation id) and writes
exactly one `PENDING` intent at that id, every other key of the store
being untouched. -/
theorem c6_initiate_pending_or_error (s : Store) (body : JVal)
    (gw : Except JVal JVal)
    (hp : truthy (getMem body "phone") = true)
    (ha : truthy (getMem body "amount") = true) :
    (∀ e, gw = .error e →
      stkpushHandler s body true gw =
        (s, ⟨500, .jobj [("error", .jstr "STK push failed"), ("detail", e)]⟩)) ∧
    (∀ d, gw = .ok d →
      truthy (chkIdOf (jsOr d (.jobj []))) = true →
      isPrim (chkIdOf (jsOr d (.jobj []))) = true →
      stkpushHandler s body true gw =
        (setStore s (chkIdOf (jsOr d (.jobj [])))
           ⟨"PENDING", jsOr d (.jobj [])⟩,
         ⟨200, .jobj [("success", .jbool true), ("data", jsOr d (.jobj []))]⟩) ∧
      getStore (stkpushHandler s body true gw).1 (chkIdOf (jsOr d (.jobj []))) =
        some ⟨"PENDING", jsOr d (.jobj [])⟩ ∧
      (∀ k, sameValueZero (chkIdOf (jsOr d (.jobj []))) k = false →
        getStore (stkpushHandler s body true gw).1 k = getStore s k)) := by
  constructor
  · intro e he
    subst he
    simp [stkpushHandler, hp, ha]
  · intro d hd ht hk
    subst hd
    have hmain : stkpushHandler s body true (.ok d) =
        (setStore s (chkIdOf (jsOr d (.jobj [])))
           ⟨"PENDING", jsOr d (.jobj [])⟩,
         ⟨200, .jobj [("success", .jbool true), ("data", jsOr d (.jobj []))]⟩) := by
      simp [stkpushHandler, hp, ha, ht]
    refine ⟨hmain, ?_, ?_⟩
    · rw [hmain]
      simp [getStore_setStore, svz_refl hk]
    · intro k hkk
      rw [hmain]
      simp [getStore_setStore, hkk]

/-- Witness for C6: both branches at concrete inputs — a gateway error is
surfaced as a 500 with the empty store unchanged, and a gateway acceptance
carrying `CheckoutRequestID: ws_6` creates the single `PENDING` intent. -/
theorem c6_witness :
    stkpushHandler [] (.jobj [("phone", .jstr "0712345678"), ("amount", .jnum 150)])
        true (.error (.jstr "Request failed with status code 500")) =
      ([], ⟨500, .jobj [("error", .jstr "STK push failed"),
                        ("detail", .jstr "Request failed with status code 500")]⟩) ∧
    stkpushHandler [] (.jobj [("phone", .jstr "0712345678"), ("amount", .jnum 150)])
        true (.ok (.jobj [("CheckoutRequestID", .jstr "ws_6")])) =
      ([(.jstr "ws_6", ⟨"PENDING", .jobj [("CheckoutRequestID", .jstr "ws_6")]⟩)],
       ⟨200, .jobj [("success", .jbool true),
                    ("data", .jobj [("CheckoutRequestID", .jstr "ws_6")])]⟩) :=
  ⟨(c6_initiate_pending_or_error []
      (.jobj [("phone", .jstr "0712345678"), ("amount", .jnum 150)])
      (.error (.jstr "Request failed with status code 500")) rfl rfl).1
      (.jstr "Request failed with status code 500") rfl,
   ((c6_initiate_pending_or_error []
      (.jobj [("phone", .jstr "0712345678"), ("amount", .jnum 150)])
      (.ok (.jobj [("CheckoutRequestID", .jstr "ws_6")])) rfl rfl).2
      (.jobj [("CheckoutRequestID", .jstr "ws_6")]) rfl rfl rfl).1⟩

/-- Claim C1 amended: transitions are last-write-wins with no terminal
guard — for an intent already stored in a terminal state, a later callback
for the same correlation id overwrites both status and detail with the
outcome computed from the new payload alone, and a later re-initiation
whose gateway acceptance returns the same correlation id overwrites the
terminal intent back to `PENDING`. -/
theorem c1_amended_last_write_wins (s : Store) (cid : String) (it₀ : Intent)
    (rc rd d body : JVal)
    (hcid : cid ≠ "")
    (h₀ : getStore s (.jstr cid) = some it₀)
    (hterm : it₀.status = "SUCCESS" ∨ it₀.status = "FAILED")
    (hrc : rc ≠ .jnum 0)
    (hd : truthy d = true)
    (hdc : chkIdOf d = .jstr cid)
    (hp : truthy (getMem body "phone") = true)
    (ha : truthy (getMem body "amount") = true) :
    getStore ((callbackHandler s (mkCallback cid rc rd .jnull)).1) (.jstr cid) =
      some ⟨"FAILED", .jobj [("ResultCode", rc),
                             ("ResultDesc", jsOr rd (.jstr ""))]⟩ ∧
    getStore ((stkpushHandler s body true (.ok d)).1) (.jstr cid) =
      some ⟨"PENDING", d⟩ := by
  constructor
  · have hc : callbackHandler s (mkCallback cid rc rd .jnull) =
        (setStore s (.jstr cid)
          ⟨"FAILED", .jobj [("ResultCode", rc),
                            ("ResultDesc", jsOr rd (.jstr ""))]⟩, cbAck) := by
      simp [callbackHandler, callbackDecision, mkCallback, stkOf, cidOf,
            rcOf, rdOf, getMem, List.lookup, jsOr, truthy, hcid,
            strictEqZero_eq_false hrc]
    rw [hc]
    simp [getStore_setStore, svz_refl (k := JVal.jstr cid) rfl]
  · have hdd : jsOr d (.jobj []) = d := by simp [jsOr, hd]
    have ht : truthy (chkIdOf (jsOr d (.jobj []))) = true := by
      rw [hdd, hdc]; simp [truthy, hcid]
    have hmain : stkpushHandler s body true (.ok d) =
        (setStore s (chkIdOf (jsOr d (.jobj [])))
           ⟨"PENDING", jsOr d (.jobj [])⟩,
         ⟨200, .jobj [("success", .jbool true), ("data", jsOr d (.jobj []))]⟩) := by
      simp [stkpushHandler, hp, ha, ht]
    rw [hmain, hdd, hdc]
    simp [getStore_setStore, svz_refl (k := JVal.jstr cid) rfl]

/-- Witness for C1 amended: an intent stored as SUCCESS for `ws_1` is
overwritten to FAILED by a late 1032 callback, and back to PENDING by a
re-initiation returning the same correlation id. -/
theorem c1_amended_witness :
    getStore ((callbackHandler
        [(.jstr "ws_1", ⟨"SUCCESS", .jobj [("ResultDesc", .jstr "ok")]⟩)]
        (mkCallback "ws_1" (.jnum 1032) (.jstr "Request cancelled by user")
          .jnull)).1) (.jstr "ws_1") =
      some ⟨"FAILED", .jobj [("ResultCode", .jnum 1032),
                             ("ResultDesc", .jstr "Request cancelled by user")]⟩ ∧
    getStore ((stkpushHandler
        [(.jstr "ws_1", ⟨"SUCCESS", .jobj [("ResultDesc", .jstr "ok")]⟩)]
        (.jobj [("phone", .jstr "0712345678"), ("amount", .jnum 150)])
        true (.ok (.jobj [("CheckoutRequestID", .jstr "ws_1")]))).1)
      (.jstr "ws_1") =
      some ⟨"PENDING", .jobj [("CheckoutRequestID", .jstr "ws_1")]⟩ :=
  c1_amended_last_write_wins
    [(.jstr "ws_1", ⟨"SUCCESS", .jobj [("ResultDesc", .jstr "ok")]⟩)]
    "ws_1" ⟨"SUCCESS", .jobj [("ResultDesc", .jstr "ok")]⟩
    (.jnum 1032) (.jstr "Request cancelled by user")
    (.jobj [("CheckoutRequestID", .jstr "ws_1")])
    (.jobj [("phone", .jstr "0712345678"), ("amount", .jnum 150)])
    (by decide) rfl (Or.inl rfl) (by simp) rfl rfl rfl rfl

/-- Claim C7 amended: a `PENDING` intent created by initiation is stored
with its `detail` equal to the raw gateway response data (`responseData`),
not absent; callback-derived detail replaces it only on a terminal
transition. -/
theorem c7_amended_pending_detail_is_gateway_response (s : Store)
    (body d : JVal)
    (hp : truthy (getMem body "phone") = true)
    (ha : truthy (getMem body "amount") = true)
    (ht : truthy (chkIdOf (jsOr d (.jobj []))) = true)
    (hk : isPrim (chkIdOf (jsOr d (.jobj []))) = true) :
    (getStore ((stkpushHandler s body true (.ok d)).1)
        (chkIdOf (jsOr d (.jobj [])))).map Intent.status = some "PENDING" ∧
    (getStore ((stkpushHandler s body true (.ok d)).1)
        (chkIdOf (jsOr d (.jobj [])))).map Intent.detail =
      some (jsOr d (.jobj [])) := by
  have hmain : stkpushHandler s body true (.ok d) =
      (setStore s (chkIdOf (jsOr d (.jobj [])))
         ⟨"PENDING", jsOr d (.jobj [])⟩,
       ⟨200, .jobj [("success", .jbool true), ("data", jsOr d (.jobj []))]⟩) := by
    simp [stkpushHandler, hp, ha, ht]
  rw [hmain]
  simp [getStore_setStore, svz_refl hk]

/-- Witness for C7 amended: the intent created for `ws_7` is `PENDING`
with the gateway response object as its detail. -/
theorem c7_witness :
    (getStore ((stkpushHandler []
        (.jobj [("phone", .jstr "0712345678"), ("amount", .jnum 150)])
        true (.ok (.jobj [("CheckoutRequestID", .jstr "ws_7"),
                          ("ResponseCode", .jstr "0")]))).1)
      (.jstr "ws_7")).map Intent.status = some "PENDING" ∧
    (getStore ((stkpushHandler []
        (.jobj [("phone", .jstr "0712345678"), ("amount", .jnum 150)])
        true (.ok (.jobj [("CheckoutRequestID", .jstr "ws_7"),
                          ("ResponseCode", .jstr "0")]))).1)
      (.jstr "ws_7")).map Intent.detail =
      some (.jobj [("CheckoutRequestID", .jstr "ws_7"),
                   ("ResponseCode", .jstr "0")]) :=
  c7_amended_pending_detail_is_gateway_response []
    (.jobj [("phone", .jstr "0712345678"), ("amount", .jnum 150)])
    (.jobj [("CheckoutRequestID", .jstr "ws_7"), ("ResponseCode", .jstr "0")])
    rfl rfl rfl rfl
